import Mathlib

/-!
Meetify.io: slot grid and booking flow of `MeetingTimeDateSelection.jsx`.

A shallow embedding of the scheduling logic of
`src/app/(routes)/[business]/_components/MeetingTimeDateSelection.jsx`:

* `createTimeSlot` — the slot grid built with `Array.from`;
* `handleDateChange` / `getPrevEventBooking` — day gating and the booking query;
* `handleScheduleEvent` / `sendEmail` — validation, the store write and the
  confirmation e-mail.

JavaScript numbers that the component manipulates are integers in the ranges
considered here; they are modelled by `Int`/`Nat`.  The one division of the
source, `(endTime - startTime) / interval`, is only ever consumed through
`Array.from({ length })`, i.e. through `ToLength`, which truncates; for an integer
`interval` the truncated double quotient equals the truncated exact quotient
(a non-integer quotient `840 / d` is at least `1 / 840` away from an integer as
long as `d ≤ 840`, and is below `1` otherwise), so the model truncates the exact
quotient.
-/

namespace Meetify

/-! ## JavaScript runtime pieces used by the component -/

/-- Exceptions thrown by the JavaScript runtime in the modelled code. -/
inductive JsError where
  | rangeError (msg : String)
  | typeError (msg : String)
  | thrown (msg : String)
  deriving DecidableEq, Repr

/-- The abstract operation `ToLength(num / den)` of ECMAScript for integers `num`, `den`: the quotient is
truncated towards zero, negative values give `0`, and the result is capped at
`2^53 - 1`.  A zero divisor gives `±Infinity` (or `NaN` for `0 / 0`), hence the
cap for a positive numerator and `0` otherwise. -/
def toLength (num den : Int) : Nat :=
  if den = 0 then (if 0 < num then 2 ^ 53 - 1 else 0)
  else min (Int.toNat (Int.tdiv num den)) (2 ^ 53 - 1)

/-- The call `Array.from({ length }, (_, i) => f i)` once `ToLength` has been applied:
constructing an array longer than `2^32 - 1` throws
`RangeError: Invalid array length`; otherwise `f` is called on `0 .. length-1`. -/
def arrayFrom {α : Type} (length : Nat) (f : Nat → α) : Except JsError (List α) :=
  if 2 ^ 32 - 1 < length then .error (.rangeError "Invalid array length")
  else .ok ((List.range length).map f)

/-- The method `String.prototype.padStart(targetLength, fill)` for a one-character `fill`. -/
def padStart (s : String) (targetLength : Nat) (fill : Char) : String :=
  String.mk (List.replicate (targetLength - s.length) fill) ++ s

/-! ## `createTimeSlot` -/

/-- The callback of `Array.from` in `createTimeSlot` (source lines 44-51):
`Math.floor` is floor division, `%` is the truncating remainder of JavaScript and
`hours % 12 || 12` replaces a zero by `12`. -/
def slotLabel (startTime interval : Int) (i : Nat) : String :=
  let totalMinutes : Int := startTime + (i : Int) * interval
  let hours : Int := Int.fdiv totalMinutes 60
  let minutes : Int := Int.tmod totalMinutes 60
  let formattedHours : Int := if Int.tmod hours 12 = 0 then 12 else Int.tmod hours 12
  let period : String := if hours ≥ 12 then "PM" else "AM"
  padStart (toString formattedHours) 2 '0' ++ ":" ++ padStart (toString minutes) 2 '0'
    ++ " " ++ period

/-- The list `slots` that `createTimeSlot(interval)` builds and hands to
`setTimeSlots` (source lines 40-55), or the exception it throws. -/
def createTimeSlot (interval : Int) : Except JsError (List String) :=
  let startTime : Int := 8 * 60
  let endTime : Int := 22 * 60
  arrayFrom (toLength (endTime - startTime) interval) (slotLabel startTime interval)

/-! ## Reading of a label, following the specification's words -/

/-- Specification-side label of minute `m` of the day: `HH:MM AM` or `HH:MM PM`,
zero-padded, `HH` being `(m div 60) mod 12` with `0` rendered as `12`, `MM` being
`m mod 60`, and the period `PM` exactly when `m ≥ 720`. -/
def specLabel (m : Nat) : String :=
  let h := (m / 60) % 12
  let hh := if h = 0 then 12 else h
  let mm := m % 60
  String.mk [Nat.digitChar (hh / 10), Nat.digitChar (hh % 10), ':',
    Nat.digitChar (mm / 10), Nat.digitChar (mm % 10), ' ',
    (if 720 ≤ m then 'P' else 'A'), 'M']

/-- Decimal value of a digit character, if it is one. -/
def digitValue (c : Char) : Option Nat :=
  if '0' ≤ c ∧ c ≤ '9' then some (c.toNat - '0'.toNat) else none

/-- Specification-side reading of a label back as a minute of the day, with
`12 AM` read as hour `0` and `12 PM` as hour `12`. -/
def wallClockMinute (label : String) : Option Nat :=
  match label.data with
  | [h1, h2, ':', m1, m2, ' ', p, 'M'] =>
    match digitValue h1, digitValue h2, digitValue m1, digitValue m2 with
    | some a, some b, some c, some d =>
      let hh := 10 * a + b
      let mm := 10 * c + d
      if 1 ≤ hh ∧ hh ≤ 12 ∧ mm < 60 then
        if p = 'A' then some ((hh % 12) * 60 + mm)
        else if p = 'P' then some ((hh % 12 + 12) * 60 + mm)
        else none
      else none
    | _, _, _, _ => none
  | _ => none

/-! ## The e-mail pattern of `handleScheduleEvent` -/

/-- The characters of a regular-expression range `lo-hi` (by code point). -/
def charRange (lo hi : Char) : List Char :=
  (List.range (hi.toNat + 1 - lo.toNat)).map (fun k => Char.ofNat (lo.toNat + k))

/-- A character class `[...]` as the alternation of its members. -/
def charClass (cs : List Char) : RegularExpression Char :=
  cs.foldr (fun c r => RegularExpression.plus (RegularExpression.char c) r) RegularExpression.zero

/-- The quantifier `+` (one or more). -/
def oneOrMore (r : RegularExpression Char) : RegularExpression Char :=
  RegularExpression.comp r (RegularExpression.star r)

/-- The quantifier `{2,4}`. -/
def twoToFour (r : RegularExpression Char) : RegularExpression Char :=
  RegularExpression.comp r (RegularExpression.comp r
    (RegularExpression.plus RegularExpression.epsilon
      (RegularExpression.comp r (RegularExpression.plus RegularExpression.epsilon r))))

/-- Members of the class `[a-zA-Z0-9._%+-]`. -/
def localClass : List Char :=
  charRange 'a' 'z' ++ charRange 'A' 'Z' ++ charRange '0' '9' ++ ['.', '_', '%', '+', '-']

/-- Members of the class `[a-zA-Z0-9.-]`. -/
def domainClass : List Char :=
  charRange 'a' 'z' ++ charRange 'A' 'Z' ++ charRange '0' '9' ++ ['.', '-']

/-- Members of the class `[a-zA-Z]`. -/
def letterClass : List Char :=
  charRange 'a' 'z' ++ charRange 'A' 'Z'

/-- The body of `/^[a-zA-Z0-9._%+-]+@[a-zA-Z0-9.-]+\.[a-zA-Z]{2,4}$/` (source line 78);
the anchors `^` and `$` make `test` a whole-string match. -/
def regex : RegularExpression Char :=
  RegularExpression.comp (oneOrMore (charClass localClass))
    (RegularExpression.comp (RegularExpression.char '@')
      (RegularExpression.comp (oneOrMore (charClass domainClass))
        (RegularExpression.comp (RegularExpression.char '.')
          (twoToFour (charClass letterClass)))))

/-- The call `regex.test(userEmail)`.  No character of the pattern lies outside the
Basic Multilingual Plane, so matching code points instead of UTF-16 code units
gives the same answer. -/
def regexTest (userEmail : String) : Bool :=
  RegularExpression.rmatch regex userEmail.data

/-! ## Data of the component -/

/-- A value held where the component expects a `Date`: `undefined`/`null`, an
`Invalid Date` (its `getTime()` is `NaN`), or a valid date given by its epoch
milliseconds. -/
inductive DateVal where
  | missing
  | invalid
  | valid (ms : Int)
  deriving DecidableEq, Repr

/-- The fields of the `eventInfo` prop read by the scheduling logic. -/
structure EventInfo where
  id : String
  duration : Int
  locationUrl : String
  deriving DecidableEq, Repr

/-- The fields of the `businessInfo` prop read by the scheduling logic;
`daysAvailable` maps weekday names to booleans and may be undefined. -/
structure BusinessInfo where
  businessName : String
  email : String
  daysAvailable : Option (List (String × Bool))
  deriving DecidableEq, Repr

/-- The props of `MeetingTimeDateSelection`; either may be undefined. -/
structure Props where
  eventInfo : Option EventInfo
  businessInfo : Option BusinessInfo
  deriving DecidableEq, Repr

/-- The document written by `setDoc` (source lines 87-101). -/
structure Booking where
  businessName : String
  businessEmail : String
  selectedTime : String
  selectedDate : Int
  formattedDate : String
  formattedTimeStamp : String
  duration : Int
  locationUrl : String
  eventId : String
  id : String
  userName : String
  userEmail : String
  userNote : String
  deriving DecidableEq, Repr

/-- The `useState` cells of the component (source lines 19-28). -/
structure State where
  date : DateVal
  timeSlots : List String
  enableTimeSlot : Bool
  selectedTime : String
  userName : String
  userEmail : String
  userNote : String
  prevBooking : List Booking
  step : Nat
  loading : Bool
  deriving DecidableEq, Repr

/-- A value compared by a `where` clause. -/
inductive FieldValue where
  | date (ms : Int)
  | str (s : String)
  deriving DecidableEq, Repr

/-- A Firestore query: a collection and its `where(field, op, value)` clauses. -/
structure Query where
  collection : String
  filters : List (String × String × FieldValue)
  deriving DecidableEq, Repr

/-- The props handed to the `Email` template (source lines 119-126). -/
structure EmailProps where
  businessName : Option String
  date : String
  duration : Option Int
  meetingTime : String
  meetingUrl : String
  userFirstName : String
  deriving DecidableEq, Repr

/-- The argument of `plunk.emails.send`; `recipient` is its field `to`. -/
structure SendRequest where
  recipient : String
  subject : String
  body : String
  deriving DecidableEq, Repr

/-- What the handlers act on outside the component state: the `ScheduledMeetings`
collection (documents by key), the toasts shown, the `console.error` lines, the
queries and send requests issued, the target of `router.replace`, and the
rejections of promises nobody handles. -/
structure World where
  store : List (String × Booking)
  toasts : List String
  errors : List String
  queries : List Query
  sendRequests : List SendRequest
  route : Option String
  unhandled : List JsError
  deriving DecidableEq, Repr

/-- The behaviour of the external collaborators during one handler run:
`Date.now()`, `format` of date-fns, whether `setDoc` and `getDocs` resolve,
what `render` returns (`none`: it throws) and whether `plunk.emails.send`
resolves. -/
structure Env where
  now : Nat
  format : Int → String → String
  setDocOk : Bool
  getDocsOk : Bool
  render : EmailProps → Option String
  sendOk : Bool

/-- Record `toast(msg)`. -/
def World.toast (w : World) (msg : String) : World :=
  { w with toasts := w.toasts ++ [msg] }

/-- Record `console.error(msg, ...)`. -/
def World.consoleError (w : World) (msg : String) : World :=
  { w with errors := w.errors ++ [msg] }

/-! ## The booking store -/

/-- Firestore `setDoc(doc(db, 'ScheduledMeetings', key), data)`: the document at
`key` is created, or replaced when it exists. -/
def setDoc (store : List (String × Booking)) (key : String) (data : Booking) :
    List (String × Booking) :=
  store.filter (fun kv => kv.1 ≠ key) ++ [(key, data)]

/-- The value of a document field that a `where` clause of the component can name. -/
def Booking.field (b : Booking) (name : String) : Option FieldValue :=
  if name = "selectedDate" then some (.date b.selectedDate)
  else if name = "eventId" then some (.str b.eventId)
  else none

/-- Whether a document satisfies one `where(field, '==', value)` clause. -/
def satisfies (b : Booking) (clause : String × String × FieldValue) : Bool :=
  clause.2.1 = "==" && b.field clause.1 = some clause.2.2

/-- Firestore `getDocs(q)` on the `ScheduledMeetings` collection, followed by the
`forEach` that collects `doc.data()`. -/
def getDocs (store : List (String × Booking)) (q : Query) : List Booking :=
  (store.filter (fun kv => q.filters.all (satisfies kv.2))).map Prod.snd

/-! ## Handlers -/

/-- The component state right after the first render (source lines 19-28):
`date` is `new Date()`. -/
def initialState (now : Int) : State :=
  { date := .valid now, timeSlots := [], enableTimeSlot := false, selectedTime := "",
    userName := "", userEmail := "", userNote := "", prevBooking := [], step := 1,
    loading := false }

/-- The effect of source lines 34-38: `createTimeSlot` runs when
`eventInfo?.duration` is truthy, and its list is stored with `setTimeSlots`. -/
def useEffect (p : Props) (s : State) : Except JsError State :=
  match p.eventInfo with
  | some e =>
    if e.duration ≠ 0 then
      match createTimeSlot e.duration with
      | .ok slots => .ok { s with timeSlots := slots }
      | .error err => .error err
    else .ok s
  | none => .ok s

/-- The truthiness of `businessInfo?.daysAvailable?.[day]` (source line 61). -/
def dayAvailable (p : Props) (day : String) : Bool :=
  match p.businessInfo with
  | some b =>
    match b.daysAvailable with
    | some m => (m.lookup day) = some true
    | none => false
  | none => false

/-- The function `getPrevEventBooking` (source lines 142-165).  Reading
`eventInfo.id` of an undefined `eventInfo` throws inside the `async` function,
which rejects its promise; nobody handles it. -/
def getPrevEventBooking (p : Props) (env : Env) (date_ : DateVal) (s : State) (w : World) :
    State × World :=
  match date_ with
  | .valid ms =>
    match p.eventInfo with
    | none => (s, { w with unhandled := w.unhandled ++ [.typeError "eventInfo is undefined"] })
    | some e =>
      let q : Query :=
        { collection := "ScheduledMeetings",
          filters := [("selectedDate", "==", .date ms), ("eventId", "==", .str e.id)] }
      let w1 : World := { w with queries := w.queries ++ [q] }
      if env.getDocsOk then
        ({ s with prevBooking := getDocs w.store q }, w1)
      else
        (s, (w1.consoleError "Error fetching previous bookings:").toast
          "Error fetching previous bookings")
  | _ => (s, w.consoleError "Invalid date in getPrevEventBooking")

/-- The function `handleDateChange` (source lines 57-70). -/
def handleDateChange (p : Props) (env : Env) (newDate : DateVal) (s : State) (w : World) :
    State × World :=
  match newDate with
  | .valid ms =>
    let s1 : State := { s with date := newDate }
    let day := env.format ms "EEEE"
    if dayAvailable p day then
      let r := getPrevEventBooking p env newDate s1 w
      ({ r.1 with enableTimeSlot := true }, r.2)
    else
      ({ s1 with enableTimeSlot := false }, w)
  | _ => (s, w.consoleError "Invalid date passed to handleDateChange")

/-- The props of the `Email` element built in `sendEmail` (source lines 119-126);
`businessInfo?.businessName` is undefined for an undefined `businessInfo`. -/
def emailProps (p : Props) (env : Env) (s : State) (ms : Int) (e : EventInfo) (user : String) :
    EmailProps :=
  { businessName := p.businessInfo.map (fun b => b.businessName),
    date := env.format ms "PPP",
    duration := some e.duration,
    meetingTime := s.selectedTime,
    meetingUrl := e.locationUrl,
    userFirstName := user }

/-- The function `sendEmail` (source lines 112-140); `.error` is an exception
thrown synchronously to the caller (by `eventInfo.locationUrl` of an undefined
`eventInfo`, or by `render`). -/
def sendEmail (p : Props) (env : Env) (s : State) (w : World) (user : String) :
    Except JsError World :=
  match s.date with
  | .valid ms =>
    match p.eventInfo with
    | none => .error (.typeError "eventInfo is undefined")
    | some e =>
      match env.render (emailProps p env s ms e user) with
      | none => .error (.thrown "render")
      | some emailHtml =>
        let w1 : World :=
          { w with sendRequests := w.sendRequests ++
              [{ recipient := s.userEmail, subject := "Meeting Schedule Details",
                 body := emailHtml }] }
        if env.sendOk then
          .ok { w1 with route := some "/confirmation" }
        else
          .ok ((w1.consoleError "Error sending email:").toast "Error sending email")
  | _ => .ok (w.consoleError "Invalid date in sendEmail")

/-- The object literal handed to `setDoc` (source lines 87-101). -/
def meetingDoc (b : BusinessInfo) (e : EventInfo) (env : Env) (s : State) (ms : Int)
    (docId : String) : Booking :=
  { businessName := b.businessName,
    businessEmail := b.email,
    selectedTime := s.selectedTime,
    selectedDate := ms,
    formattedDate := env.format ms "PPP",
    formattedTimeStamp := env.format ms "t",
    duration := e.duration,
    locationUrl := e.locationUrl,
    eventId := e.id,
    id := docId,
    userName := s.userName,
    userEmail := s.userEmail,
    userNote := s.userNote }

/-- The world once `setDoc` has resolved and the success toast is shown (source
lines 87-102). -/
def World.scheduled (w : World) (docId : String) (data : Booking) : World :=
  ({ w with store := setDoc w.store docId data }).toast "Meeting Scheduled successfully!"

/-- The `catch` and `finally` blocks of `handleScheduleEvent` (source lines
104-109), entered from the world `w`. -/
def scheduleFailed (s : State) (w : World) : State × World :=
  ({ s with loading := false },
    (w.consoleError "Error scheduling event:").toast "Error scheduling event")

/-- The function `handleScheduleEvent` (source lines 72-110).  The object literal
of the document reads `businessInfo.businessName` and `eventInfo.duration`, which
throw inside the `try` when the prop is undefined; an exception thrown by
`sendEmail`, called inside the same `try`, reaches the same `catch`. -/
def handleScheduleEvent (p : Props) (env : Env) (s : State) (w : World) : State × World :=
  match s.date with
  | .valid ms =>
    if regexTest s.userEmail = false then
      (s, w.toast "Enter valid email address")
    else
      let docId := toString env.now
      match p.businessInfo, p.eventInfo with
      | some b, some e =>
        if env.setDocOk then
          let w1 : World := w.scheduled docId (meetingDoc b e env s ms docId)
          match sendEmail p env s w1 s.userName with
          | .ok w2 => ({ s with loading := false }, w2)
          | .error _ => scheduleFailed s w1
        else scheduleFailed s w
      | _, _ => scheduleFailed s w
  | _ => (s, w.toast "Invalid date")

/-- The `disabled` attribute of the `Next` button (source line 216). -/
def nextDisabled (s : State) : Bool :=
  s.selectedTime = "" || s.date = .missing

/-- The `disabled` attribute of the `Schedule` button (source line 220). -/
def scheduleDisabled (s : State) : Bool :=
  s.userEmail = "" || s.userName = ""

/-- A click on `Next` (source lines 215-218); the button is rendered at step 1
and a disabled button does not fire. -/
def clickNext (s : State) : State :=
  if s.step = 1 ∧ nextDisabled s = false then { s with step := s.step + 1 } else s

/-- A click on `Back` (source line 213), rendered at step 2. -/
def clickBack (s : State) : State :=
  if s.step = 2 then { s with step := 1 } else s

/-- A click on `Schedule` (source lines 220-224), rendered when the step is not 1. -/
def clickSchedule (p : Props) (env : Env) (s : State) (w : World) : State × World :=
  if s.step ≠ 1 ∧ scheduleDisabled s = false then handleScheduleEvent p env s w else (s, w)

/-! ## The component as a transition system -/

/-- What can happen to the mounted component: the effect of lines 34-38, a call
of a callback handed to a child, or a click on one of the three buttons.
`TimeDateSelection` (rendered at step 1, lines 194-203) receives
`handleDateChange` and `setSelectedTime`; `UserFormInfo` (rendered otherwise,
lines 204-210) receives the three form setters.  The children are not part of
the modelled source, so they may call their callbacks with any argument. -/
inductive Event where
  | effect
  | dateChange (newDate : DateVal)
  | selectTime (time : String)
  | typeName (value : String)
  | typeEmail (value : String)
  | typeNote (value : String)
  | next
  | back
  | schedule
  deriving DecidableEq, Repr

/-- One event on the component; a callback of a child that is not rendered at the
current step cannot be called. -/
def fire (p : Props) (env : Env) (ev : Event) (s : State) (w : World) : State × World :=
  match ev with
  | .effect =>
    match useEffect p s with
    | .ok s2 => (s2, w)
    | .error _ => (s, w)
  | .dateChange newDate => if s.step = 1 then handleDateChange p env newDate s w else (s, w)
  | .selectTime time => if s.step = 1 then ({ s with selectedTime := time }, w) else (s, w)
  | .typeName value => if s.step = 1 then (s, w) else ({ s with userName := value }, w)
  | .typeEmail value => if s.step = 1 then (s, w) else ({ s with userEmail := value }, w)
  | .typeNote value => if s.step = 1 then (s, w) else ({ s with userNote := value }, w)
  | .next => (clickNext s, w)
  | .back => (clickBack s, w)
  | .schedule => clickSchedule p env s w

/-- The states the component can be in: the state of the first render, and any
state obtained from a reachable one by an event, whatever the collaborators do
and whatever the store holds at that moment. -/
inductive Reachable (p : Props) : State → Prop where
  | init (now : Int) : Reachable p (initialState now)
  | fire (env : Env) (ev : Event) (s : State) (w : World) :
      Reachable p s → Reachable p (fire p env ev s w).1

/-! ## Specification-side notions -/

/-- The key of the collision invariant: meeting type, date and slot. -/
def Booking.slotKey (b : Booking) : String × Int × String :=
  (b.eventId, b.selectedDate, b.selectedTime)

/-- Specification-side collision invariant: no two documents of the store share
the same `(eventId, selectedDate, selectedTime)`. -/
def CollisionFree (store : List (String × Booking)) : Prop :=
  store.Pairwise (fun x y => x.2.slotKey ≠ y.2.slotKey)

/-- Specification-side letters: the ASCII letters `a`-`z` and `A`-`Z`. -/
def isLetter (c : Char) : Prop :=
  ('a' ≤ c ∧ c ≤ 'z') ∨ ('A' ≤ c ∧ c ≤ 'Z')

/-- Specification-side digits `0`-`9`. -/
def isDigit (c : Char) : Prop :=
  '0' ≤ c ∧ c ≤ '9'

/-- Specification-side shape `local@domain.tld`: the local part is one or more of
letters, digits, `.`, `_`, `%`, `+`, `-`; the domain is one or more of letters,
digits, `.`, `-`; the TLD is 2 to 4 letters. -/
def EmailShape (email : String) : Prop :=
  ∃ loc dom tld : List Char,
    email.data = loc ++ '@' :: (dom ++ '.' :: tld) ∧
    loc ≠ [] ∧ (∀ c ∈ loc, isLetter c ∨ isDigit c ∨ c ∈ ['.', '_', '%', '+', '-']) ∧
    dom ≠ [] ∧ (∀ c ∈ dom, isLetter c ∨ isDigit c ∨ c ∈ ['.', '-']) ∧
    2 ≤ tld.length ∧ tld.length ≤ 4 ∧ (∀ c ∈ tld, isLetter c)

/-! ## Concrete inputs for instantiating the statements -/

/-- A stand-in for `format` of date-fns: the weekday name for the pattern `EEEE`
(in UTC; the epoch was a Thursday), and the pattern followed by the timestamp
for any other pattern. -/
def sampleFormat (ms : Int) (pattern : String) : String :=
  if pattern = "EEEE" then
    ["Thursday", "Friday", "Saturday", "Sunday", "Monday", "Tuesday", "Wednesday"].getD
      (Int.toNat ((ms / 86400000) % 7)) ""
  else pattern ++ " " ++ toString ms

/-- A meeting type of 30 minutes. -/
def sampleEvent : EventInfo :=
  { id := "evt-1", duration := 30, locationUrl := "https://meet.example/room" }

/-- A business open on Mondays and Thursdays, closed on Fridays, silent about the
other days. -/
def sampleBusiness : BusinessInfo :=
  { businessName := "Acme", email := "owner@acme.io",
    daysAvailable := some [("Monday", true), ("Thursday", true), ("Friday", false)] }

/-- Both props defined. -/
def sampleProps : Props :=
  { eventInfo := some sampleEvent, businessInfo := some sampleBusiness }

/-- Collaborators at time `now` with the given outcomes; `render` returns a fixed
body when `renderOk` and throws otherwise. -/
def sampleEnv (now : Nat) (setDocOk getDocsOk renderOk sendOk : Bool) : Env :=
  { now := now, format := sampleFormat, setDocOk := setDocOk, getDocsOk := getDocsOk,
    render := fun _ => if renderOk then some "<html/>" else none, sendOk := sendOk }

/-- The form filled in at step 2: Thursday 1 January 1970, the given slot and
e-mail address. -/
def sampleState (selectedTime userEmail : String) : State :=
  { initialState 0 with
    selectedTime := selectedTime, userName := "Ann", userEmail := userEmail, step := 2 }

/-- Nothing stored, shown or sent yet. -/
def emptyWorld : World :=
  { store := [], toasts := [], errors := [], queries := [], sendRequests := [],
    route := none, unhandled := [] }

/-- A booking of `evt-1` on 1 January 1970 at `10:00 AM`, stored earlier. -/
def sampleBooking : Booking :=
  { businessName := "Acme", businessEmail := "owner@acme.io", selectedTime := "10:00 AM",
    selectedDate := 0, formattedDate := "PPP 0", formattedTimeStamp := "t 0", duration := 30,
    locationUrl := "https://meet.example/room", eventId := "evt-1", id := "1",
    userName := "Bob", userEmail := "bob@x.org", userNote := "" }

/-- A world whose store holds `sampleBooking` under the key `1`. -/
def bookedWorld : World :=
  { emptyWorld with store := [("1", sampleBooking)] }

/-- The state after choosing `10:00 AM`, going to step 2, typing the name `Ann`
and the address `a@b.co`, going back to step 1 and clearing the slot. -/
def slotCleared : State :=
  { initialState 0 with userName := "Ann", userEmail := "a@b.co" }

/-! ## Facts about the slot grid -/

theorem toLength_pos (d : Nat) (hd : 0 < d) : toLength (22 * 60 - 8 * 60) (d : Int) = 840 / d := by
  have h0 : (d : Int) ≠ 0 := by omega
  have h1 : Int.tdiv (22 * 60 - 8 * 60) (d : Int) = ((840 / d : Nat) : Int) := by
    rw [Int.tdiv_eq_ediv (by norm_num) (by omega)]
    norm_num
  have h2 : 840 / d ≤ 840 := Nat.div_le_self _ _
  simp only [toLength, h0, if_false, h1, Int.toNat_ofNat]
  omega

theorem toLength_neg (k : Int) (hk : k < 0) : toLength (22 * 60 - 8 * 60) k = 0 := by
  have h0 : k ≠ 0 := by omega
  have h1 : Int.tdiv (22 * 60 - 8 * 60) k ≤ 0 :=
    Int.tdiv_nonpos (by norm_num) (by omega)
  simp only [toLength, h0, if_false]
  have : Int.toNat (Int.tdiv (22 * 60 - 8 * 60) k) = 0 := by omega
  rw [this]; rfl

theorem padStart_two (n : Nat) (hn : n < 100) :
    padStart (toString (n : Int)) 2 '0' = String.mk [Nat.digitChar (n / 10), Nat.digitChar (n % 10)] := by
  interval_cases n <;> rfl

theorem slotLabel_eq_specLabel (d i : Nat) (h : 480 + i * d < 1440) :
    slotLabel (8 * 60) (d : Int) i = specLabel (480 + i * d) := by
  have hm : (8 * 60 : Int) + (i : Int) * (d : Int) = ((480 + i * d : Nat) : Int) := by
    push_cast; ring
  generalize 480 + i * d = m at h hm
  have hh : Int.fdiv (m : Int) 60 = ((m / 60 : Nat) : Int) := by
    rw [Int.fdiv_eq_ediv _ (by norm_num)]; norm_num
  have hmin : Int.tmod (m : Int) 60 = ((m % 60 : Nat) : Int) := by
    rw [Int.tmod_eq_emod (by omega) (by norm_num)]; norm_num
  have h12 : Int.tmod ((m / 60 : Nat) : Int) 12 = (((m / 60) % 12 : Nat) : Int) := by
    rw [Int.tmod_eq_emod (by omega) (by norm_num)]; norm_num
  unfold slotLabel specLabel
  simp only [hm, hh, hmin, h12]
  have hf : (if (((m / 60) % 12 : Nat) : Int) = 0 then (12 : Int) else (((m / 60) % 12 : Nat) : Int))
      = (((if (m / 60) % 12 = 0 then 12 else (m / 60) % 12 : Nat)) : Int) := by
    split_ifs <;> first | rfl | omega
  rw [hf, padStart_two _ (by split_ifs <;> omega), padStart_two _ (by omega)]
  have hp : ((m / 60 : Nat) : Int) ≥ 12 ↔ 720 ≤ m := by omega
  by_cases hpm : 720 ≤ m
  · rw [if_pos (hp.mpr hpm), if_pos hpm]; rfl
  · rw [if_neg (fun hc => hpm (hp.mp hc)), if_neg hpm]; rfl

theorem digitValue_digitChar (k : Nat) (hk : k < 10) : digitValue (Nat.digitChar k) = some k := by
  interval_cases k <;> rfl

theorem wallClockMinute_specLabel (m : Nat) (h : m < 1440) :
    wallClockMinute (specLabel m) = some m := by
  have hh10 : (if (m / 60) % 12 = 0 then 12 else (m / 60) % 12) / 10 < 10 := by
    split_ifs <;> omega
  unfold specLabel wallClockMinute
  simp only [digitValue_digitChar _ hh10, digitValue_digitChar _ (Nat.mod_lt _ (by norm_num : 0 < 10)),
    digitValue_digitChar (m % 60 / 10) (by omega)]
  have e1 : ∀ n : Nat, 10 * (n / 10) + n % 10 = n := fun n => by omega
  rw [e1, e1]
  have hc : 1 ≤ (if (m / 60) % 12 = 0 then 12 else (m / 60) % 12) ∧
      (if (m / 60) % 12 = 0 then 12 else (m / 60) % 12) ≤ 12 ∧ m % 60 < 60 := by
    split_ifs <;> omega
  rw [if_pos hc]
  by_cases hpm : 720 ≤ m
  · have hP : ('P' = 'A') = False := by decide
    simp only [if_pos hpm, hP, if_false, if_true, Option.some.injEq]
    split_ifs <;> omega
  · simp only [if_neg hpm, if_true, Option.some.injEq]
    split_ifs <;> omega

theorem createTimeSlot_pos (d : Nat) (hd : 0 < d) :
    createTimeSlot (d : Int) = .ok ((List.range (840 / d)).map (fun i => specLabel (480 + i * d))) := by
  have hlen : 840 / d ≤ 840 := Nat.div_le_self _ _
  unfold createTimeSlot
  simp only [toLength_pos d hd, arrayFrom]
  rw [if_neg (by omega)]
  congr 1
  apply List.map_congr_left
  intro i hi
  have hi2 : i < 840 / d := List.mem_range.mp hi
  have : i * d < 840 := by
    calc i * d < (840 / d) * d := Nat.mul_lt_mul_of_pos_right hi2 hd
      _ ≤ 840 := Nat.div_mul_le_self _ _
  exact slotLabel_eq_specLabel d i (by omega)

theorem createTimeSlot_neg (k : Int) (hk : k < 0) : createTimeSlot k = .ok [] := by
  unfold createTimeSlot
  simp only [toLength_neg k hk, arrayFrom]
  rfl

theorem useEffect_ok (p : Props) (s : State) : ∃ s2, useEffect p s = .ok s2 := by
  unfold useEffect
  cases p.eventInfo with
  | none => exact ⟨s, rfl⟩
  | some e =>
    by_cases h0 : e.duration = 0
    · exact ⟨s, by simp [h0]⟩
    · rcases lt_or_gt_of_ne h0 with hneg | hpos
      · exact ⟨{ s with timeSlots := [] }, by simp [h0, createTimeSlot_neg _ hneg]⟩
      · have hcast : e.duration = ((e.duration.toNat : Nat) : Int) := by omega
        have hd : 0 < e.duration.toNat := by omega
        simp only [h0, ne_eq, not_false_eq_true, if_true]
        rw [hcast, createTimeSlot_pos _ hd]
        exact ⟨_, rfl⟩

/-! ## Facts about the e-mail pattern -/

theorem mem_charRange_lower (c : Char) : c ∈ charRange 'a' 'z' ↔ ('a' ≤ c ∧ c ≤ 'z') := by
  unfold charRange
  rw [List.mem_map]
  constructor
  · rintro ⟨k, hk, rfl⟩
    have hk2 : k < 26 := by simpa using hk
    interval_cases k <;> decide
  · rintro ⟨h1, h2⟩
    have h1n : 97 ≤ c.toNat := h1
    have h2n : c.toNat ≤ 122 := h2
    refine ⟨c.toNat - 97, ?_, ?_⟩
    · rw [List.mem_range]; show c.toNat - 97 < 26; omega
    · show Char.ofNat (97 + (c.toNat - 97)) = c
      rw [show 97 + (c.toNat - 97) = c.toNat by omega, Char.ofNat_toNat]

theorem matches_charClass (cs : List Char) (x : List Char) :
    x ∈ (charClass cs).matches' ↔ ∃ c ∈ cs, x = [c] := by
  induction cs with
  | nil => simp [charClass]
  | cons a t ih =>
    have : charClass (a :: t) = RegularExpression.plus (RegularExpression.char a) (charClass t) := rfl
    rw [this, RegularExpression.matches', Language.mem_add, ih, List.exists_mem_cons_iff]
    exact Iff.rfl

theorem matches_star_charClass (cs : List Char) (x : List Char) :
    x ∈ (RegularExpression.star (charClass cs)).matches' ↔ ∀ c ∈ x, c ∈ cs := by
  rw [RegularExpression.matches'_star, Language.mem_kstar]
  constructor
  · rintro ⟨L, rfl, hL⟩ c hc
    obtain ⟨y, hy, hcy⟩ := List.mem_flatten.mp hc
    obtain ⟨c', hc', rfl⟩ := (matches_charClass cs y).mp (hL y hy)
    rw [List.mem_singleton] at hcy
    rw [hcy]; exact hc'
  · intro h
    refine ⟨x.map (fun c => [c]), ?_, ?_⟩
    · clear h
      induction x with
      | nil => rfl
      | cons a t ih => simp [List.flatten, ← ih]
    · intro y hy
      obtain ⟨c, hc, rfl⟩ := List.mem_map.mp hy
      exact (matches_charClass cs _).mpr ⟨c, h c hc, rfl⟩

theorem matches_oneOrMore (cs : List Char) (x : List Char) :
    x ∈ (oneOrMore (charClass cs)).matches' ↔ x ≠ [] ∧ ∀ c ∈ x, c ∈ cs := by
  unfold oneOrMore
  rw [RegularExpression.matches', Language.mem_mul]
  constructor
  · rintro ⟨a, ha, b, hb, rfl⟩
    obtain ⟨c, hc, rfl⟩ := (matches_charClass cs a).mp ha
    refine ⟨by simp, ?_⟩
    intro c' hc'
    rcases List.mem_append.mp hc' with h | h
    · rw [List.mem_singleton] at h; rw [h]; exact hc
    · exact (matches_star_charClass cs b).mp hb c' h
  · rintro ⟨hne, h⟩
    cases x with
    | nil => exact absurd rfl hne
    | cons a t =>
      refine ⟨[a], (matches_charClass cs _).mpr ⟨a, h a (List.mem_cons_self _ _), rfl⟩, t, ?_, rfl⟩
      exact (matches_star_charClass cs t).mpr (fun c hc => h c (List.mem_cons_of_mem _ hc))


theorem matches_twoToFour (cs : List Char) (x : List Char) :
    x ∈ (twoToFour (charClass cs)).matches' ↔
      (2 ≤ x.length ∧ x.length ≤ 4) ∧ ∀ c ∈ x, c ∈ cs := by
  unfold twoToFour
  simp only [RegularExpression.matches', Language.mem_mul, Language.mem_add, Language.mem_one,
    matches_charClass]
  constructor
  · rintro ⟨_, ⟨a, ha, rfl⟩, _, ⟨_, ⟨b, hb, rfl⟩, r, hr, rfl⟩, rfl⟩
    rcases hr with rfl | ⟨_, ⟨c, hc, rfl⟩, r2, hr2, rfl⟩
    · simp [ha, hb]
    · rcases hr2 with rfl | ⟨d, hd, rfl⟩
      · simp [ha, hb, hc]
      · simp [ha, hb, hc, hd]
  · rintro ⟨⟨h2, h4⟩, h⟩
    match x, h2, h4, h with
    | [a, b], _, _, h =>
      exact ⟨[a], ⟨a, h a (by simp), rfl⟩, [b], ⟨[b], ⟨b, h b (by simp), rfl⟩, [], Or.inl rfl, rfl⟩, rfl⟩
    | [a, b, c], _, _, h =>
      exact ⟨[a], ⟨a, h a (by simp), rfl⟩, [b, c], ⟨[b], ⟨b, h b (by simp), rfl⟩, [c],
        Or.inr ⟨[c], ⟨c, h c (by simp), rfl⟩, [], Or.inl rfl, rfl⟩, rfl⟩, rfl⟩
    | [a, b, c, d], _, _, h =>
      exact ⟨[a], ⟨a, h a (by simp), rfl⟩, [b, c, d], ⟨[b], ⟨b, h b (by simp), rfl⟩, [c, d],
        Or.inr ⟨[c], ⟨c, h c (by simp), rfl⟩, [d], Or.inr ⟨d, h d (by simp), rfl⟩, rfl⟩, rfl⟩, rfl⟩

theorem mem_charRange_upper (c : Char) : c ∈ charRange 'A' 'Z' ↔ ('A' ≤ c ∧ c ≤ 'Z') := by
  unfold charRange
  rw [List.mem_map]
  constructor
  · rintro ⟨k, hk, rfl⟩
    have hk2 : k < 26 := by simpa using hk
    interval_cases k <;> decide
  · rintro ⟨h1, h2⟩
    have h1n : 65 ≤ c.toNat := h1
    have h2n : c.toNat ≤ 90 := h2
    refine ⟨c.toNat - 65, ?_, ?_⟩
    · rw [List.mem_range]; show c.toNat - 65 < 26; omega
    · show Char.ofNat (65 + (c.toNat - 65)) = c
      rw [show 65 + (c.toNat - 65) = c.toNat by omega, Char.ofNat_toNat]

theorem mem_charRange_digit (c : Char) : c ∈ charRange '0' '9' ↔ ('0' ≤ c ∧ c ≤ '9') := by
  unfold charRange
  rw [List.mem_map]
  constructor
  · rintro ⟨k, hk, rfl⟩
    have hk2 : k < 10 := by simpa using hk
    interval_cases k <;> decide
  · rintro ⟨h1, h2⟩
    have h1n : 48 ≤ c.toNat := h1
    have h2n : c.toNat ≤ 57 := h2
    refine ⟨c.toNat - 48, ?_, ?_⟩
    · rw [List.mem_range]; show c.toNat - 48 < 10; omega
    · show Char.ofNat (48 + (c.toNat - 48)) = c
      rw [show 48 + (c.toNat - 48) = c.toNat by omega, Char.ofNat_toNat]

theorem mem_letterClass (c : Char) : c ∈ letterClass ↔ isLetter c := by
  unfold letterClass isLetter
  rw [List.mem_append, mem_charRange_lower, mem_charRange_upper]

theorem mem_localClass (c : Char) :
    c ∈ localClass ↔ (isLetter c ∨ isDigit c ∨ c ∈ ['.', '_', '%', '+', '-']) := by
  unfold localClass isLetter isDigit
  rw [List.mem_append, List.mem_append, List.mem_append, mem_charRange_lower,
    mem_charRange_upper, mem_charRange_digit]
  tauto

theorem mem_domainClass (c : Char) :
    c ∈ domainClass ↔ (isLetter c ∨ isDigit c ∨ c ∈ ['.', '-']) := by
  unfold domainClass isLetter isDigit
  rw [List.mem_append, List.mem_append, List.mem_append, mem_charRange_lower,
    mem_charRange_upper, mem_charRange_digit]
  tauto

theorem matches_comp (P Q : RegularExpression Char) (x : List Char) :
    x ∈ (RegularExpression.comp P Q).matches' ↔
      ∃ a, a ∈ P.matches' ∧ ∃ b, b ∈ Q.matches' ∧ a ++ b = x := by
  rw [RegularExpression.comp_def, RegularExpression.matches'_mul, Language.mem_mul]

theorem matches_char (a : Char) (x : List Char) :
    x ∈ (RegularExpression.char a).matches' ↔ x = [a] := by
  rw [RegularExpression.matches'_char]; exact Iff.rfl

theorem regexTest_iff_emailShape (email : String) : regexTest email = true ↔ EmailShape email := by
  unfold regexTest EmailShape regex
  rw [RegularExpression.rmatch_iff_matches']
  simp only [matches_comp, matches_char, matches_oneOrMore, matches_twoToFour,
    mem_letterClass, mem_localClass, mem_domainClass]
  constructor
  · rintro ⟨loc, ⟨hl1, hl2⟩, _, ⟨_, rfl, _, ⟨dom, ⟨hd1, hd2⟩, _, ⟨_, rfl, tld, ⟨⟨ht1, ht2⟩, ht3⟩, rfl⟩,
      rfl⟩, rfl⟩, hx⟩
    exact ⟨loc, dom, tld, by rw [← hx]; simp, hl1, hl2, hd1, hd2, ht1, ht2, ht3⟩
  · rintro ⟨loc, dom, tld, hx, hl1, hl2, hd1, hd2, ht1, ht2, ht3⟩
    exact ⟨loc, ⟨hl1, hl2⟩, _, ⟨['@'], rfl, _, ⟨dom, ⟨hd1, hd2⟩, _, ⟨['.'], rfl, tld,
      ⟨⟨ht1, ht2⟩, ht3⟩, rfl⟩, rfl⟩, rfl⟩, by rw [hx]; simp⟩

/-! ## Facts about the handlers -/

theorem regexTest_sample : regexTest "a@b.co" = true := by
  rw [regexTest_iff_emailShape]
  refine ⟨['a'], ['b'], ['c', 'o'], rfl, by simp, ?_, by simp, ?_, by simp, by simp, ?_⟩
  · intro c hc
    rw [List.mem_singleton] at hc
    subst hc
    exact Or.inl (Or.inl (by decide))
  · intro c hc
    rw [List.mem_singleton] at hc
    subst hc
    exact Or.inl (Or.inl (by decide))
  · intro c hc
    simp only [List.mem_cons, List.mem_singleton, List.not_mem_nil, or_false] at hc
    rcases hc with rfl | rfl
    · exact Or.inl (by decide)
    · exact Or.inl (by decide)

theorem not_emailShape_sample : ¬ EmailShape "not-an-email" := by
  rintro ⟨loc, dom, tld, h, -⟩
  have hmem : '@' ∈ ("not-an-email" : String).data := by
    rw [h]; simp
  revert hmem
  decide

theorem handleScheduleEvent_write_ok (p : Props) (env : Env) (s : State) (w : World)
    (b : BusinessInfo) (e : EventInfo) (ms : Int)
    (hdate : s.date = .valid ms) (hmail : regexTest s.userEmail = true)
    (hb : p.businessInfo = some b) (he : p.eventInfo = some e) (hw : env.setDocOk = true) :
    handleScheduleEvent p env s w =
      match sendEmail p env s
          (w.scheduled (toString env.now) (meetingDoc b e env s ms (toString env.now)))
          s.userName with
      | .ok w2 => ({ s with loading := false }, w2)
      | .error _ => scheduleFailed s
          (w.scheduled (toString env.now) (meetingDoc b e env s ms (toString env.now))) := by
  unfold handleScheduleEvent
  simp only [hdate, hmail, hb, he, hw, if_true, Bool.true_eq_false, if_false]

theorem sendEmail_eq (p : Props) (env : Env) (s : State) (w : World) (user : String)
    (e : EventInfo) (ms : Int) (hdate : s.date = .valid ms) (he : p.eventInfo = some e) :
    sendEmail p env s w user =
      match env.render (emailProps p env s ms e user) with
      | none => .error (.thrown "render")
      | some emailHtml =>
        if env.sendOk then
          .ok { w with
            sendRequests := w.sendRequests ++
              [{ recipient := s.userEmail, subject := "Meeting Schedule Details",
                 body := emailHtml }],
            route := some "/confirmation" }
        else
          .ok ((({ w with sendRequests := w.sendRequests ++
              [{ recipient := s.userEmail, subject := "Meeting Schedule Details",
                 body := emailHtml }] } : World).consoleError "Error sending email:").toast
            "Error sending email") := by
  unfold sendEmail
  simp only [hdate, he]

/-- What the user sees after a successful write, by outcome of the notification
step: a resolved send shows the success toast only; a rejected send adds
`Error sending email`; a `render` that throws is caught by the `catch` of
`handleScheduleEvent` and adds `Error scheduling event`.  The stored booking is
the same in the three cases. -/
theorem handleScheduleEvent_notification_outcomes (p : Props) (env : Env) (s : State) (w : World)
    (b : BusinessInfo) (e : EventInfo) (ms : Int)
    (hdate : s.date = .valid ms) (hmail : regexTest s.userEmail = true)
    (hb : p.businessInfo = some b) (he : p.eventInfo = some e) (hw : env.setDocOk = true) :
    (handleScheduleEvent p env s w).2.store =
        setDoc w.store (toString env.now) (meetingDoc b e env s ms (toString env.now)) ∧
    (∀ html, env.render (emailProps p env s ms e s.userName) = some html → env.sendOk = true →
      (handleScheduleEvent p env s w).2.toasts =
        w.toasts ++ ["Meeting Scheduled successfully!"]) ∧
    (∀ html, env.render (emailProps p env s ms e s.userName) = some html → env.sendOk = false →
      (handleScheduleEvent p env s w).2.toasts =
        w.toasts ++ ["Meeting Scheduled successfully!", "Error sending email"]) ∧
    (env.render (emailProps p env s ms e s.userName) = none →
      (handleScheduleEvent p env s w).2.toasts =
        w.toasts ++ ["Meeting Scheduled successfully!", "Error scheduling event"]) := by
  rw [handleScheduleEvent_write_ok p env s w b e ms hdate hmail hb he hw,
    sendEmail_eq p env s _ s.userName e ms hdate he]
  refine ⟨?_, ?_, ?_, ?_⟩
  · cases hr : env.render (emailProps p env s ms e s.userName) with
    | none => rfl
    | some html => cases hs : env.sendOk <;> rfl
  · intro html hr hs
    simp [hr, hs, World.toast, World.scheduled]
  · intro html hr hs
    simp [hr, hs, World.toast, World.consoleError, World.scheduled]
  · intro hr
    simp [hr, scheduleFailed, World.toast, World.consoleError, World.scheduled]

theorem handleScheduleEvent_success_toast (p : Props) (env : Env) (s : State) (w : World)
    (b : BusinessInfo) (e : EventInfo) (ms : Int)
    (hdate : s.date = .valid ms) (hmail : regexTest s.userEmail = true)
    (hb : p.businessInfo = some b) (he : p.eventInfo = some e) (hw : env.setDocOk = true) :
    "Meeting Scheduled successfully!" ∈ (handleScheduleEvent p env s w).2.toasts := by
  obtain ⟨-, h1, h2, h3⟩ :=
    handleScheduleEvent_notification_outcomes p env s w b e ms hdate hmail hb he hw
  cases hr : env.render (emailProps p env s ms e s.userName) with
  | none => rw [h3 hr]; simp
  | some html =>
    cases hs : env.sendOk with
    | true => rw [h1 html hr hs]; simp
    | false => rw [h2 html hr hs]; simp

theorem dayAvailable_eq_true (p : Props) (day : String) (b : BusinessInfo)
    (m : List (String × Bool)) (hb : p.businessInfo = some b) (hm : b.daysAvailable = some m)
    (hday : m.lookup day = some true) : dayAvailable p day = true := by
  unfold dayAvailable
  simp only [hb, hm, hday, decide_True]

theorem dayAvailable_eq_false (p : Props) (day : String)
    (hday : ∀ b m, p.businessInfo = some b → b.daysAvailable = some m →
      (m.lookup day = none ∨ m.lookup day = some false)) : dayAvailable p day = false := by
  unfold dayAvailable
  cases hb : p.businessInfo with
  | none => rfl
  | some b =>
    cases hm : b.daysAvailable with
    | none => simp only [hm]
    | some m =>
      rcases hday b m hb hm with h | h <;> simp [hm, h]

theorem initialState_date_valid (now : Int) : (initialState now).date = .valid now := rfl

theorem handleDateChange_date_valid (p : Props) (env : Env) (newDate : DateVal) (s : State)
    (w : World) (h : ∃ ms, s.date = .valid ms) :
    ∃ ms, (handleDateChange p env newDate s w).1.date = .valid ms := by
  unfold handleDateChange
  cases newDate with
  | missing => exact h
  | invalid => exact h
  | valid t =>
    refine ⟨t, ?_⟩
    simp only
    split
    · unfold getPrevEventBooking
      simp only
      cases p.eventInfo with
      | none => rfl
      | some e => cases env.getDocsOk <;> rfl
    · rfl

theorem handleScheduleEvent_date (p : Props) (env : Env) (s : State) (w : World) :
    (handleScheduleEvent p env s w).1.date = s.date := by
  unfold handleScheduleEvent scheduleFailed
  split
  · split
    · rfl
    · split
      · split
        · dsimp only
          generalize sendEmail p env s _ s.userName = r
          cases r <;> rfl
        · rfl
      · rfl
  · rfl

theorem useEffect_step_time (p : Props) (s s2 : State) (h : useEffect p s = .ok s2) :
    s2.step = s.step ∧ s2.selectedTime = s.selectedTime := by
  unfold useEffect at h
  split at h
  · split at h
    · split at h
      · cases h
        exact ⟨rfl, rfl⟩
      · cases h
    · cases h
      exact ⟨rfl, rfl⟩
  · cases h
    exact ⟨rfl, rfl⟩

theorem handleDateChange_step_time (p : Props) (env : Env) (newDate : DateVal) (s : State)
    (w : World) :
    (handleDateChange p env newDate s w).1.step = s.step ∧
      (handleDateChange p env newDate s w).1.selectedTime = s.selectedTime := by
  unfold handleDateChange
  cases newDate with
  | missing => exact ⟨rfl, rfl⟩
  | invalid => exact ⟨rfl, rfl⟩
  | valid t =>
    simp only
    split
    · unfold getPrevEventBooking
      simp only
      cases p.eventInfo with
      | none => exact ⟨rfl, rfl⟩
      | some e => cases env.getDocsOk <;> exact ⟨rfl, rfl⟩
    · exact ⟨rfl, rfl⟩

theorem handleScheduleEvent_step_time (p : Props) (env : Env) (s : State) (w : World) :
    (handleScheduleEvent p env s w).1.step = s.step ∧
      (handleScheduleEvent p env s w).1.selectedTime = s.selectedTime := by
  unfold handleScheduleEvent scheduleFailed
  split
  · split
    · exact ⟨rfl, rfl⟩
    · split
      · split
        · dsimp only
          generalize sendEmail p env s _ s.userName = r
          cases r <;> exact ⟨rfl, rfl⟩
        · exact ⟨rfl, rfl⟩
      · exact ⟨rfl, rfl⟩
  · exact ⟨rfl, rfl⟩

theorem fire_step (p : Props) (env : Env) (ev : Event) (s : State) (w : World)
    (h : s.step = 1 ∨ (s.step = 2 ∧ s.selectedTime ≠ "")) :
    (fire p env ev s w).1.step = 1 ∨
      ((fire p env ev s w).1.step = 2 ∧ (fire p env ev s w).1.selectedTime ≠ "") := by
  cases ev with
  | effect =>
    simp only [fire]
    cases hu : useEffect p s with
    | error err => exact h
    | ok s2 =>
      obtain ⟨h1, h2⟩ := useEffect_step_time p s s2 hu
      simp only [h1, h2]
      exact h
  | dateChange newDate =>
    simp only [fire]
    split
    · obtain ⟨h1, h2⟩ := handleDateChange_step_time p env newDate s w
      rw [h1, h2]
      exact h
    · exact h
  | selectTime time =>
    simp only [fire]
    split
    · rename_i h1
      exact Or.inl h1
    · exact h
  | typeName value =>
    simp only [fire]
    split
    · exact h
    · exact h
  | typeEmail value =>
    simp only [fire]
    split
    · exact h
    · exact h
  | typeNote value =>
    simp only [fire]
    split
    · exact h
    · exact h
  | next =>
    simp only [fire, clickNext]
    split
    · rename_i hc
      refine Or.inr ⟨by simp [hc.1], ?_⟩
      have hd := hc.2
      unfold nextDisabled at hd
      intro he
      have he2 : s.selectedTime = "" := he
      simp [he2] at hd
    · exact h
  | back =>
    simp only [fire, clickBack]
    split
    · exact Or.inl rfl
    · exact h
  | schedule =>
    simp only [fire, clickSchedule]
    split
    · obtain ⟨h1, h2⟩ := handleScheduleEvent_step_time p env s w
      rw [h1, h2]
      exact h
    · exact h

theorem reachable_step (p : Props) (s : State) (hr : Reachable p s) :
    s.step = 1 ∨ (s.step = 2 ∧ s.selectedTime ≠ "") := by
  induction hr with
  | init now => exact Or.inl rfl
  | fire env ev s w _ ih => exact fire_step p env ev s w ih

theorem reachable_date_valid (p : Props) (s : State) (hr : Reachable p s) :
    ∃ ms, s.date = .valid ms := by
  induction hr with
  | init now => exact ⟨now, rfl⟩
  | fire env ev s w _ ih =>
    cases ev with
    | effect =>
      simp only [fire]
      cases hu : useEffect p s with
      | error err => exact ih
      | ok s2 =>
        unfold useEffect at hu
        split at hu
        · split at hu
          · split at hu
            · cases hu
              exact ih
            · cases hu
          · cases hu
            exact ih
        · cases hu
          exact ih
    | dateChange newDate =>
      simp only [fire]
      split
      · exact handleDateChange_date_valid p env newDate s w ih
      · exact ih
    | selectTime time => simp only [fire]; split <;> exact ih
    | typeName value => simp only [fire]; split <;> exact ih
    | typeEmail value => simp only [fire]; split <;> exact ih
    | typeNote value => simp only [fire]; split <;> exact ih
    | next => simp only [fire, clickNext]; split <;> exact ih
    | back => simp only [fire, clickBack]; split <;> exact ih
    | schedule =>
      simp only [fire, clickSchedule]
      split
      · rw [handleScheduleEvent_date]
        exact ih
      · exact ih

theorem reachable_slotCleared : Reachable sampleProps slotCleared := by
  have h0 : Reachable sampleProps (initialState 0) := Reachable.init 0
  have h1 := Reachable.fire (sampleEnv 5 true true true true) (.selectTime "10:00 AM") _
    emptyWorld h0
  have h2 := Reachable.fire (sampleEnv 5 true true true true) .next _ emptyWorld h1
  have h3 := Reachable.fire (sampleEnv 5 true true true true) (.typeName "Ann") _ emptyWorld h2
  have h4 := Reachable.fire (sampleEnv 5 true true true true) (.typeEmail "a@b.co") _
    emptyWorld h3
  have h5 := Reachable.fire (sampleEnv 5 true true true true) .back _ emptyWorld h4
  have h6 := Reachable.fire (sampleEnv 5 true true true true) (.selectTime "") _ emptyWorld h5
  exact h6

theorem collisionFree_setDoc (store : List (String × Booking)) (key : String) (data : Booking)
    (hfree : CollisionFree store) (hnew : ∀ kv ∈ store, kv.2.slotKey ≠ data.slotKey) :
    CollisionFree (setDoc store key data) := by
  unfold CollisionFree setDoc
  rw [List.pairwise_append]
  refine ⟨List.Pairwise.sublist (List.filter_sublist _) hfree, List.pairwise_singleton _ _, ?_⟩
  intro kv hkv x hx
  rw [List.mem_singleton] at hx
  subst hx
  exact hnew kv (List.mem_of_mem_filter hkv)

theorem not_collisionFree_setDoc (store : List (String × Booking)) (key : String)
    (data : Booking) (kv : String × Booking) (hmem : kv ∈ store) (hkey : kv.1 ≠ key)
    (hsame : kv.2.slotKey = data.slotKey) : ¬ CollisionFree (setDoc store key data) := by
  unfold CollisionFree setDoc
  rw [List.pairwise_append]
  rintro ⟨-, -, h⟩
  have hin : kv ∈ store.filter (fun kv => kv.1 ≠ key) := by
    rw [List.mem_filter]
    exact ⟨hmem, by simpa using hkey⟩
  exact h kv hin (key, data) (List.mem_singleton.mpr rfl) hsame

/-! ## Claims about the slot grid -/

/-- C1: for every positive integer duration `d`, `createTimeSlot d` returns a slot
list of exactly `floor(840 / d)` labels; the last partial increment of the window
`480..1320` is dropped (the labels cover at most 840 minutes and one more would
overshoot, with slack left over when `d` does not divide 840), and the list is
empty when `d > 840`. -/
theorem createTimeSlot_length (d : Nat) (hd : 0 < d) :
    ∃ slots : List String, createTimeSlot (d : Int) = .ok slots ∧
      slots.length = 840 / d ∧
      slots.length * d ≤ 840 ∧ 840 < (slots.length + 1) * d ∧
      (¬ d ∣ 840 → slots.length * d < 840) ∧
      (840 < d → slots = []) := by
  refine ⟨_, createTimeSlot_pos d hd, ?_⟩
  have hlen : ((List.range (840 / d)).map (fun i => specLabel (480 + i * d))).length = 840 / d := by
    simp
  have hle : 840 / d * d ≤ 840 := Nat.div_mul_le_self _ _
  have hlt : 840 < (840 / d + 1) * d := by
    have := Nat.lt_succ_self (840 / d)
    exact (Nat.div_lt_iff_lt_mul hd).mp this
  refine ⟨hlen, by rw [hlen]; exact hle, by rw [hlen]; exact hlt, ?_, ?_⟩
  · intro hnd
    rw [hlen]
    rcases Nat.lt_or_eq_of_le hle with h | h
    · exact h
    · exact absurd (Dvd.intro_left _ h) hnd
  · intro hbig
    have : 840 / d = 0 := Nat.div_eq_of_lt hbig
    rw [this]; rfl

/-- Instance of C1 at `d = 45`, which does not divide 840: 18 labels. -/
theorem createTimeSlot_length_witness :
    ∃ slots : List String, createTimeSlot ((45 : Nat) : Int) = .ok slots ∧
      slots.length = 840 / 45 ∧
      slots.length * 45 ≤ 840 ∧ 840 < (slots.length + 1) * 45 ∧
      (¬ 45 ∣ 840 → slots.length * 45 < 840) ∧
      (840 < 45 → slots = []) :=
  createTimeSlot_length 45 (by decide)

/-- C2: for every positive integer `d` and every index `i < floor(840 / d)`, the
`i`-th label of `createTimeSlot d` is the zero-padded 12-hour label of minute
`480 + i * d`; hence the first label (when there is one) is `08:00 AM`, for `d`
dividing 840 the last label is that of minute `1320 - d`, one step before
`10:00 PM`, and `createTimeSlot 60` is the 14 labels from `08:00 AM` to
`09:00 PM` with `12:00 PM` at index 4. -/
theorem createTimeSlot_labels (d : Nat) (hd : 0 < d) :
    ∃ slots : List String, createTimeSlot (d : Int) = .ok slots ∧
      (∀ i, i < 840 / d → slots[i]? = some (specLabel (480 + i * d))) ∧
      (d ≤ 840 → slots.head? = some "08:00 AM") ∧
      (d ∣ 840 → slots.getLast? = some (specLabel (1320 - d)) ∧
        specLabel (1320 - d + d) = "10:00 PM") ∧
      createTimeSlot 60 = .ok ["08:00 AM", "09:00 AM", "10:00 AM", "11:00 AM", "12:00 PM",
        "01:00 PM", "02:00 PM", "03:00 PM", "04:00 PM", "05:00 PM", "06:00 PM", "07:00 PM",
        "08:00 PM", "09:00 PM"] ∧
      (["08:00 AM", "09:00 AM", "10:00 AM", "11:00 AM", "12:00 PM",
        "01:00 PM", "02:00 PM", "03:00 PM", "04:00 PM", "05:00 PM", "06:00 PM", "07:00 PM",
        "08:00 PM", "09:00 PM"] : List String)[4]? = some "12:00 PM" := by
  refine ⟨_, createTimeSlot_pos d hd, ?_, ?_, ?_, by rfl, by rfl⟩
  · intro i hi
    simp [hi]
  · intro hle
    have hpos : 0 < 840 / d := Nat.div_pos hle hd
    obtain ⟨n, hn⟩ : ∃ n, 840 / d = n + 1 := ⟨840 / d - 1, by omega⟩
    rw [hn, List.range_succ_eq_map, List.map_cons, List.head?_cons, Nat.zero_mul]
    rfl
  · intro hdvd
    have hle : d ≤ 840 := Nat.le_of_dvd (by norm_num) hdvd
    have hpos : 0 < 840 / d := Nat.div_pos hle hd
    obtain ⟨n, hn⟩ : ∃ n, 840 / d = n + 1 := ⟨840 / d - 1, by omega⟩
    have hmul : (n + 1) * d = 840 := by rw [← hn]; exact Nat.div_mul_cancel hdvd
    constructor
    · rw [hn, List.range_succ, List.map_append, List.map_singleton, List.getLast?_concat]
      have : 480 + n * d = 1320 - d := by
        have : n * d + d = 840 := by rw [← hmul]; ring
        omega
      rw [this]
    · rw [show 1320 - d + d = 1320 by omega]; rfl

/-- Instance of C2 at `d = 30`. -/
theorem createTimeSlot_labels_witness :
    ∃ slots : List String, createTimeSlot ((30 : Nat) : Int) = .ok slots ∧
      (∀ i, i < 840 / 30 → slots[i]? = some (specLabel (480 + i * 30))) ∧
      (30 ≤ 840 → slots.head? = some "08:00 AM") ∧
      (30 ∣ 840 → slots.getLast? = some (specLabel (1320 - 30)) ∧
        specLabel (1320 - 30 + 30) = "10:00 PM") ∧
      createTimeSlot 60 = .ok ["08:00 AM", "09:00 AM", "10:00 AM", "11:00 AM", "12:00 PM",
        "01:00 PM", "02:00 PM", "03:00 PM", "04:00 PM", "05:00 PM", "06:00 PM", "07:00 PM",
        "08:00 PM", "09:00 PM"] ∧
      (["08:00 AM", "09:00 AM", "10:00 AM", "11:00 AM", "12:00 PM",
        "01:00 PM", "02:00 PM", "03:00 PM", "04:00 PM", "05:00 PM", "06:00 PM", "07:00 PM",
        "08:00 PM", "09:00 PM"] : List String)[4]? = some "12:00 PM" :=
  createTimeSlot_labels 30 (by decide)

/-- C3: for every positive integer `d`, the labels of `createTimeSlot d` are
strictly increasing in wall-clock order: read back as minutes of the day, the
label at index `i` denotes a strictly earlier minute than the label at index `j`
whenever `i < j`; hence two different indices never carry the same label. -/
theorem createTimeSlot_strictly_increasing (d : Nat) (hd : 0 < d) :
    ∃ slots : List String, createTimeSlot (d : Int) = .ok slots ∧
      ∀ i j, i < j → j < slots.length →
        ∃ a b x y, slots[i]? = some x ∧ slots[j]? = some y ∧
          wallClockMinute x = some a ∧ wallClockMinute y = some b ∧ a < b ∧ x ≠ y := by
  refine ⟨_, createTimeSlot_pos d hd, ?_⟩
  intro i j hij hj
  have hj2 : j < 840 / d := by simpa using hj
  have hi2 : i < 840 / d := lt_trans hij hj2
  have hle : 840 / d * d ≤ 840 := Nat.div_mul_le_self _ _
  have hjd : j * d < 840 :=
    lt_of_lt_of_le (Nat.mul_lt_mul_of_pos_right hj2 hd) hle
  have hid : i * d < j * d := Nat.mul_lt_mul_of_pos_right hij hd
  have ha := wallClockMinute_specLabel (480 + i * d) (by omega)
  have hb := wallClockMinute_specLabel (480 + j * d) (by omega)
  refine ⟨480 + i * d, 480 + j * d, specLabel (480 + i * d), specLabel (480 + j * d),
    by simp [hi2], by simp [hj2], ha, hb, by omega, ?_⟩
  intro heq
  rw [heq, hb] at ha
  have := Option.some.inj ha
  omega

/-- Instance of C3 at `d = 7`. -/
theorem createTimeSlot_strictly_increasing_witness :
    ∃ slots : List String, createTimeSlot ((7 : Nat) : Int) = .ok slots ∧
      ∀ i j, i < j → j < slots.length →
        ∃ a b x y, slots[i]? = some x ∧ slots[j]? = some y ∧
          wallClockMinute x = some a ∧ wallClockMinute y = some b ∧ a < b ∧ x ≠ y :=
  createTimeSlot_strictly_increasing 7 (by decide)

/-- C10, as stated, fails: for the negative duration `-30`, `createTimeSlot`
signals no error and produces the empty slot list. -/
theorem createTimeSlot_negative_counterexample :
    ((-30 : Int) ≤ 0) ∧ createTimeSlot (-30) = .ok [] ∧
      ¬ ∃ err, createTimeSlot (-30) = .error err := by
  refine ⟨by decide, by rfl, ?_⟩
  rintro ⟨err, h⟩
  have h2 : createTimeSlot (-30) = .ok [] := by rfl
  rw [h2] at h
  cases h

/-- C10, amended: for the duration zero `createTimeSlot` signals an error (the
`RangeError` of `Array.from` for the length `Infinity`); for every negative
duration it signals no error and produces the empty slot list. -/
theorem createTimeSlot_nonpositive (k : Int) (hk : k ≤ 0) :
    (k = 0 → createTimeSlot k = .error (.rangeError "Invalid array length")) ∧
      (k < 0 → createTimeSlot k = .ok []) := by
  constructor
  · rintro rfl
    rfl
  · intro hneg
    exact createTimeSlot_neg k hneg

/-- Instance of the amended C10 at the duration `-15`. -/
theorem createTimeSlot_nonpositive_witness :
    ((-15 : Int) = 0 → createTimeSlot (-15) = .error (.rangeError "Invalid array length")) ∧
      ((-15 : Int) < 0 → createTimeSlot (-15) = .ok []) :=
  createTimeSlot_nonpositive (-15) (by decide)

/-! ## Claims about the booking commit -/

/-- C4, as stated, fails: the store holding one booking of `evt-1` on 1 January
1970 at `10:00 AM` is collision-free; a commit for the same meeting type, date
and slot reports success and leaves two bookings with that triple. -/
theorem handleScheduleEvent_collision_counterexample :
    CollisionFree bookedWorld.store ∧
      "Meeting Scheduled successfully!" ∈
        (handleScheduleEvent sampleProps (sampleEnv 5 true true true true)
          (sampleState "10:00 AM" "a@b.co") bookedWorld).2.toasts ∧
      ¬ CollisionFree
        (handleScheduleEvent sampleProps (sampleEnv 5 true true true true)
          (sampleState "10:00 AM" "a@b.co") bookedWorld).2.store := by
  refine ⟨?_, ?_, ?_⟩
  · unfold CollisionFree bookedWorld
    exact List.pairwise_singleton _ _
  · exact handleScheduleEvent_success_toast sampleProps (sampleEnv 5 true true true true)
      (sampleState "10:00 AM" "a@b.co") bookedWorld sampleBusiness sampleEvent 0 rfl
      regexTest_sample rfl rfl rfl
  · rw [(handleScheduleEvent_notification_outcomes sampleProps (sampleEnv 5 true true true true)
      (sampleState "10:00 AM" "a@b.co") bookedWorld sampleBusiness sampleEvent 0 rfl
      regexTest_sample rfl rfl rfl).1]
    exact not_collisionFree_setDoc _ _ _ ("1", sampleBooking) (List.mem_singleton.mpr rfl)
      (by decide) rfl

/-- C4, amended: `handleScheduleEvent` performs no collision check and has no
`SlotCollision` outcome.  Every commit that passes validation and whose write
succeeds stores the booking under the timestamp key and reports success.  From a
collision-free store the result is collision-free when the `(eventId,
selectedDate, selectedTime)` of the commit is not yet booked; when it is already
booked under another key the booking is written all the same and the store then
holds two bookings with that triple. -/
theorem handleScheduleEvent_unconditional_write (p : Props) (env : Env) (s : State) (w : World)
    (b : BusinessInfo) (e : EventInfo) (ms : Int)
    (hdate : s.date = .valid ms) (hmail : regexTest s.userEmail = true)
    (hb : p.businessInfo = some b) (he : p.eventInfo = some e) (hw : env.setDocOk = true) :
    (handleScheduleEvent p env s w).2.store =
        setDoc w.store (toString env.now) (meetingDoc b e env s ms (toString env.now)) ∧
    "Meeting Scheduled successfully!" ∈ (handleScheduleEvent p env s w).2.toasts ∧
    (CollisionFree w.store →
      (∀ kv ∈ w.store, kv.2.slotKey ≠ (e.id, ms, s.selectedTime)) →
      CollisionFree (handleScheduleEvent p env s w).2.store) ∧
    (∀ kv ∈ w.store, kv.1 ≠ toString env.now →
      kv.2.slotKey = (e.id, ms, s.selectedTime) →
      ¬ CollisionFree (handleScheduleEvent p env s w).2.store) := by
  have hstore := (handleScheduleEvent_notification_outcomes p env s w b e ms hdate hmail hb he
    hw).1
  refine ⟨hstore, handleScheduleEvent_success_toast p env s w b e ms hdate hmail hb he hw, ?_, ?_⟩
  · intro hfree hnew
    rw [hstore]
    exact collisionFree_setDoc _ _ _ hfree hnew
  · intro kv hmem hkey hsame
    rw [hstore]
    exact not_collisionFree_setDoc _ _ _ kv hmem hkey hsame

/-- Instance of the amended C4: a commit at `11:00 AM` into the store that holds a
`10:00 AM` booking. -/
theorem handleScheduleEvent_unconditional_write_witness :
    (handleScheduleEvent sampleProps (sampleEnv 5 true true true true)
        (sampleState "11:00 AM" "a@b.co") bookedWorld).2.store =
      setDoc bookedWorld.store "5"
        (meetingDoc sampleBusiness sampleEvent (sampleEnv 5 true true true true)
          (sampleState "11:00 AM" "a@b.co") 0 "5") ∧
    CollisionFree (handleScheduleEvent sampleProps (sampleEnv 5 true true true true)
        (sampleState "11:00 AM" "a@b.co") bookedWorld).2.store := by
  have h := handleScheduleEvent_unconditional_write sampleProps (sampleEnv 5 true true true true)
    (sampleState "11:00 AM" "a@b.co") bookedWorld sampleBusiness sampleEvent 0 rfl
    regexTest_sample rfl rfl rfl
  refine ⟨h.1, h.2.2.1 ?_ ?_⟩
  · unfold CollisionFree bookedWorld
    exact List.pairwise_singleton _ _
  · intro kv hkv
    have : kv = ("1", sampleBooking) := List.mem_singleton.mp hkv
    subst this
    decide

/-- C5: for every visitor e-mail that does not have the shape `local@domain.tld`
(TLD of 2 to 4 letters), `handleScheduleEvent` writes nothing to the store, issues
no send request and does not navigate; with a valid date (the date check comes
first) the commit is rejected with the invalid-e-mail toast and nothing else
changes.  The address `not-an-email` is such a string. -/
theorem handleScheduleEvent_invalid_email (p : Props) (env : Env) (s : State) (w : World)
    (hshape : ¬ EmailShape s.userEmail) :
    ((handleScheduleEvent p env s w).2.store = w.store ∧
      (handleScheduleEvent p env s w).2.sendRequests = w.sendRequests ∧
      (handleScheduleEvent p env s w).2.route = w.route) ∧
    (∀ ms, s.date = .valid ms →
      handleScheduleEvent p env s w = (s, w.toast "Enter valid email address")) ∧
    ¬ EmailShape "not-an-email" := by
  have hre : regexTest s.userEmail = false := by
    cases h : regexTest s.userEmail with
    | false => rfl
    | true => exact absurd ((regexTest_iff_emailShape _).mp h) hshape
  refine ⟨?_, ?_, not_emailShape_sample⟩
  · unfold handleScheduleEvent
    split
    · rw [if_pos hre]
      exact ⟨rfl, rfl, rfl⟩
    · exact ⟨rfl, rfl, rfl⟩
  · intro ms hms
    unfold handleScheduleEvent
    simp only [hms, hre, if_true]

/-- Instance of C5 at the address `not-an-email`. -/
theorem handleScheduleEvent_invalid_email_witness :
    ¬ EmailShape (sampleState "10:00 AM" "not-an-email").userEmail ∧
      handleScheduleEvent sampleProps (sampleEnv 5 true true true true)
          (sampleState "10:00 AM" "not-an-email") emptyWorld =
        (sampleState "10:00 AM" "not-an-email", emptyWorld.toast "Enter valid email address") :=
  ⟨not_emailShape_sample,
    (handleScheduleEvent_invalid_email sampleProps (sampleEnv 5 true true true true)
      (sampleState "10:00 AM" "not-an-email") emptyWorld not_emailShape_sample).2.1 0 rfl⟩

/-- C6: in every state the component can reach in which no time slot is selected
(`selectedTime` is the empty string), the commit is rejected before any store
access, even when the date is valid and the address passes the pattern: the
component is at step 1, where the `Next` button is disabled and a click on it
changes nothing, and `handleScheduleEvent`, whose only caller is the `Schedule`
button of step 2, is not run, so that a click on `Schedule` writes nothing to the
store, sends nothing and changes neither the state nor the world. -/
theorem clickSchedule_no_slot (p : Props) (env : Env) (s : State) (w : World)
    (hr : Reachable p s) (hsel : s.selectedTime = "") :
    s.step = 1 ∧ nextDisabled s = true ∧ clickNext s = s ∧
    clickSchedule p env s w = (s, w) ∧
    (clickSchedule p env s w).2.store = w.store ∧
    (clickSchedule p env s w).2.sendRequests = w.sendRequests ∧
    (fire p env .schedule s w).2.store = w.store := by
  have hstep : s.step = 1 := by
    rcases reachable_step p s hr with h | ⟨-, h⟩
    · exact h
    · exact absurd hsel h
  have hclick : clickSchedule p env s w = (s, w) := by
    unfold clickSchedule
    rw [if_neg]
    intro hc
    exact hc.1 hstep
  have hnext : nextDisabled s = true := by
    unfold nextDisabled
    simp [hsel]
  refine ⟨hstep, hnext, ?_, hclick, by rw [hclick], by rw [hclick], ?_⟩
  · unfold clickNext
    rw [if_neg]
    intro hc
    rw [hnext] at hc
    exact absurd hc.2 (by decide)
  · show (clickSchedule p env s w).2.store = w.store
    rw [hclick]

/-- Instance of C6 on two reachable states without a selected slot: the state of
the first render, and the state with a valid date and the address `a@b.co`, which
passes the pattern, after the slot has been cleared at step 1. -/
theorem clickSchedule_no_slot_witness :
    (Reachable sampleProps (initialState 0) ∧ (initialState 0).selectedTime = "" ∧
      clickSchedule sampleProps (sampleEnv 5 true true true true) (initialState 0) bookedWorld =
        (initialState 0, bookedWorld)) ∧
    (Reachable sampleProps slotCleared ∧ slotCleared.selectedTime = "" ∧
      slotCleared.date = .valid 0 ∧ regexTest slotCleared.userEmail = true ∧
      clickSchedule sampleProps (sampleEnv 5 true true true true) slotCleared emptyWorld =
        (slotCleared, emptyWorld)) :=
  ⟨⟨Reachable.init 0, rfl,
      (clickSchedule_no_slot sampleProps (sampleEnv 5 true true true true) (initialState 0)
        bookedWorld (Reachable.init 0) rfl).2.2.2.1⟩,
    ⟨reachable_slotCleared, rfl, rfl, regexTest_sample,
      (clickSchedule_no_slot sampleProps (sampleEnv 5 true true true true) slotCleared
        emptyWorld reachable_slotCleared rfl).2.2.2.1⟩⟩

/-- C8, evaluated where it fails: the write succeeds and `render` throws; the
booking is stored, and after the success toast the `catch` of
`handleScheduleEvent` shows `Error scheduling event`, a booking-failure message.
With a resolved or rejected send instead, no such message is shown. -/
theorem handleScheduleEvent_render_failure :
    (handleScheduleEvent sampleProps (sampleEnv 5 true true false true)
        (sampleState "10:00 AM" "a@b.co") emptyWorld).2.store =
      [("5", meetingDoc sampleBusiness sampleEvent (sampleEnv 5 true true false true)
        (sampleState "10:00 AM" "a@b.co") 0 "5")] ∧
    (handleScheduleEvent sampleProps (sampleEnv 5 true true false true)
        (sampleState "10:00 AM" "a@b.co") emptyWorld).2.toasts =
      ["Meeting Scheduled successfully!", "Error scheduling event"] ∧
    (handleScheduleEvent sampleProps (sampleEnv 5 true true true false)
        (sampleState "10:00 AM" "a@b.co") emptyWorld).2.toasts =
      ["Meeting Scheduled successfully!", "Error sending email"] ∧
    (handleScheduleEvent sampleProps (sampleEnv 5 true true true true)
        (sampleState "10:00 AM" "a@b.co") emptyWorld).2.toasts =
      ["Meeting Scheduled successfully!"] := by
  have h1 := handleScheduleEvent_notification_outcomes sampleProps
    (sampleEnv 5 true true false true) (sampleState "10:00 AM" "a@b.co") emptyWorld
    sampleBusiness sampleEvent 0 rfl regexTest_sample rfl rfl rfl
  have h2 := handleScheduleEvent_notification_outcomes sampleProps
    (sampleEnv 5 true true true false) (sampleState "10:00 AM" "a@b.co") emptyWorld
    sampleBusiness sampleEvent 0 rfl regexTest_sample rfl rfl rfl
  have h3 := handleScheduleEvent_notification_outcomes sampleProps
    (sampleEnv 5 true true true true) (sampleState "10:00 AM" "a@b.co") emptyWorld
    sampleBusiness sampleEvent 0 rfl regexTest_sample rfl rfl rfl
  exact ⟨h1.1, h1.2.2.2 rfl, h2.2.2.1 "<html/>" rfl rfl, h3.2.1 "<html/>" rfl rfl⟩

/-! ## Claims about the availability check -/

theorem handleDateChange_unavailable (p : Props) (env : Env) (s : State) (w : World) (ms : Int)
    (h : dayAvailable p (env.format ms "EEEE") = false) :
    handleDateChange p env (.valid ms) s w =
      ({ s with date := .valid ms, enableTimeSlot := false }, w) := by
  unfold handleDateChange
  simp only [h, Bool.false_eq_true, if_false]

theorem handleDateChange_available (p : Props) (env : Env) (s : State) (w : World) (ms : Int)
    (e : EventInfo) (he : p.eventInfo = some e)
    (h : dayAvailable p (env.format ms "EEEE") = true) :
    handleDateChange p env (.valid ms) s w =
      if env.getDocsOk then
        ({ s with date := .valid ms, enableTimeSlot := true,
                  prevBooking := getDocs w.store
                    { collection := "ScheduledMeetings",
                      filters := [("selectedDate", "==", .date ms), ("eventId", "==", .str e.id)] } },
         { w with queries := w.queries ++
            [{ collection := "ScheduledMeetings",
               filters := [("selectedDate", "==", .date ms), ("eventId", "==", .str e.id)] }] })
      else
        ({ s with date := .valid ms, enableTimeSlot := true },
         (({ w with queries := w.queries ++
            [{ collection := "ScheduledMeetings",
               filters := [("selectedDate", "==", .date ms), ("eventId", "==", .str e.id)] }] } :
           World).consoleError "Error fetching previous bookings:").toast
           "Error fetching previous bookings") := by
  unfold handleDateChange getPrevEventBooking
  simp only [h, if_true, he]
  cases env.getDocsOk <;> rfl

/-- C7: day gating.  For every valid date whose weekday name is absent from the
weekly availability map or mapped to false, `handleDateChange` sets the
day-enabled flag to false and issues no booking-store query; for a weekday mapped
to true it sets the flag to true and issues exactly one query, filtered by
equality on that date and on the id of the current meeting type. -/
theorem handleDateChange_day_gating (p : Props) (env : Env) (s : State) (w : World) (ms : Int) :
    ((∀ b m, p.businessInfo = some b → b.daysAvailable = some m →
        (m.lookup (env.format ms "EEEE") = none ∨
          m.lookup (env.format ms "EEEE") = some false)) →
      (handleDateChange p env (.valid ms) s w).1.enableTimeSlot = false ∧
      (handleDateChange p env (.valid ms) s w).2.queries = w.queries) ∧
    (∀ b m e, p.businessInfo = some b → b.daysAvailable = some m → p.eventInfo = some e →
      m.lookup (env.format ms "EEEE") = some true →
      (handleDateChange p env (.valid ms) s w).1.enableTimeSlot = true ∧
      (handleDateChange p env (.valid ms) s w).2.queries = w.queries ++
        [{ collection := "ScheduledMeetings",
           filters := [("selectedDate", "==", .date ms), ("eventId", "==", .str e.id)] }]) := by
  constructor
  · intro hday
    rw [handleDateChange_unavailable p env s w ms (dayAvailable_eq_false p _ hday)]
    exact ⟨rfl, rfl⟩
  · intro b m e hb hm he hday
    rw [handleDateChange_available p env s w ms e he (dayAvailable_eq_true p _ b m hb hm hday)]
    cases env.getDocsOk <;> exact ⟨rfl, rfl⟩

/-- Instance of C7: a Saturday (absent from the map) and a Friday (mapped to
false) issue no query and disable the day; a Thursday (mapped to true) issues the
one query on the date and on `evt-1`. -/
theorem handleDateChange_day_gating_witness :
    ((handleDateChange sampleProps (sampleEnv 5 true true true true) (.valid 172800000)
        (initialState 7) emptyWorld).1.enableTimeSlot = false ∧
      (handleDateChange sampleProps (sampleEnv 5 true true true true) (.valid 172800000)
        (initialState 7) emptyWorld).2.queries = []) ∧
    ((handleDateChange sampleProps (sampleEnv 5 true true true true) (.valid 86400000)
        (initialState 7) emptyWorld).1.enableTimeSlot = false ∧
      (handleDateChange sampleProps (sampleEnv 5 true true true true) (.valid 86400000)
        (initialState 7) emptyWorld).2.queries = []) ∧
    ((handleDateChange sampleProps (sampleEnv 5 true true true true) (.valid 0)
        (initialState 7) emptyWorld).1.enableTimeSlot = true ∧
      (handleDateChange sampleProps (sampleEnv 5 true true true true) (.valid 0)
        (initialState 7) emptyWorld).2.queries =
        [{ collection := "ScheduledMeetings",
           filters := [("selectedDate", "==", .date 0), ("eventId", "==", .str "evt-1")] }]) := by
  refine ⟨?_, ?_, ?_⟩
  · refine (handleDateChange_day_gating sampleProps (sampleEnv 5 true true true true)
      (initialState 7) emptyWorld 172800000).1 ?_
    intro b m hb hm
    cases hb
    cases hm
    exact Or.inl (by decide)
  · refine (handleDateChange_day_gating sampleProps (sampleEnv 5 true true true true)
      (initialState 7) emptyWorld 86400000).1 ?_
    intro b m hb hm
    cases hb
    cases hm
    exact Or.inr (by decide)
  · exact (handleDateChange_day_gating sampleProps (sampleEnv 5 true true true true)
      (initialState 7) emptyWorld 0).2 sampleBusiness _ sampleEvent rfl rfl rfl (by decide)

/-- C9, as stated, fails: on a Thursday mapped to true with a failing query, the
day-enabled flag ends up true, not false. -/
theorem handleDateChange_query_failure_counterexample :
    dayAvailable sampleProps ((sampleEnv 5 true false true true).format 0 "EEEE") = true ∧
      (sampleEnv 5 true false true true).getDocsOk = false ∧
      (handleDateChange sampleProps (sampleEnv 5 true false true true) (.valid 0)
        (initialState 7) emptyWorld).1.enableTimeSlot = true ∧
      (handleDateChange sampleProps (sampleEnv 5 true false true true) (.valid 0)
        (initialState 7) emptyWorld).1.enableTimeSlot ≠ false := by
  refine ⟨by decide, rfl, ?_, ?_⟩
  · rw [handleDateChange_available sampleProps (sampleEnv 5 true false true true)
      (initialState 7) emptyWorld 0 sampleEvent rfl (by decide)]
    rfl
  · rw [handleDateChange_available sampleProps (sampleEnv 5 true false true true)
      (initialState 7) emptyWorld 0 sampleEvent rfl (by decide)]
    decide

/-- C9, amended: for every valid date on an available weekday, if the
booking-store query issued by the availability check fails, the error is caught
(one `console.error` line and the toast `Error fetching previous bookings`), no
rejection is left unhandled, the previous bookings and the store are unchanged,
and the day-enabled flag is true. -/
theorem handleDateChange_query_failure (p : Props) (env : Env) (s : State) (w : World) (ms : Int)
    (b : BusinessInfo) (m : List (String × Bool)) (e : EventInfo)
    (hb : p.businessInfo = some b) (hm : b.daysAvailable = some m)
    (he : p.eventInfo = some e) (hday : m.lookup (env.format ms "EEEE") = some true)
    (hq : env.getDocsOk = false) :
    (handleDateChange p env (.valid ms) s w).1.enableTimeSlot = true ∧
    (handleDateChange p env (.valid ms) s w).1.prevBooking = s.prevBooking ∧
    (handleDateChange p env (.valid ms) s w).1.date = .valid ms ∧
    (handleDateChange p env (.valid ms) s w).2.toasts =
      w.toasts ++ ["Error fetching previous bookings"] ∧
    (handleDateChange p env (.valid ms) s w).2.errors =
      w.errors ++ ["Error fetching previous bookings:"] ∧
    (handleDateChange p env (.valid ms) s w).2.unhandled = w.unhandled ∧
    (handleDateChange p env (.valid ms) s w).2.store = w.store := by
  rw [handleDateChange_available p env s w ms e he (dayAvailable_eq_true p _ b m hb hm hday), hq]
  exact ⟨rfl, rfl, rfl, rfl, rfl, rfl, rfl⟩

/-- Instance of the amended C9 on a Thursday with a failing query. -/
theorem handleDateChange_query_failure_witness :
    (handleDateChange sampleProps (sampleEnv 5 true false true true) (.valid 0)
        (initialState 7) emptyWorld).1.enableTimeSlot = true ∧
    (handleDateChange sampleProps (sampleEnv 5 true false true true) (.valid 0)
        (initialState 7) emptyWorld).2.toasts = ["Error fetching previous bookings"] ∧
    (handleDateChange sampleProps (sampleEnv 5 true false true true) (.valid 0)
        (initialState 7) emptyWorld).2.unhandled = [] :=
  have h := handleDateChange_query_failure sampleProps (sampleEnv 5 true false true true)
    (initialState 7) emptyWorld 0 sampleBusiness _ sampleEvent rfl rfl rfl (by decide) rfl
  ⟨h.1, h.2.2.2.1, h.2.2.2.2.2.1⟩

end Meetify
